import Mathlib

/-!
Shallow embedding of the document persistence-and-serialization layer of
`src/main.py`: the `serialize_doc` codec, the `ensure_seed_projects`
seeding policy, the `list_projects` listing/sorting policy, and the
creation handlers `create_project` / `submit_contact`.

Python dictionaries are modelled as insertion-ordered association lists
(`Doc`), Python runtime values by the inductive `Value` (strings,
integers, `datetime` instants, BSON ObjectIds, `None`, lists of
strings), and `datetime.now(timezone.utc)` by an abstract clock
`Nat → Nat` mapping the index of the call to the instant it returns.
-/

/-- Python runtime values that flow through the documented layer:
strings, integers, `datetime` objects (abstracted as a tick), BSON
`ObjectId`s (abstracted as a number), `None`, and lists of strings
(the `tags` field). Only `datetime` values have an `isoformat`
attribute. -/
inductive Value where
  | str (s : String)
  | int (n : Int)
  | dt (t : Nat)
  | oid (n : Nat)
  | null
  | strList (ss : List String)
deriving DecidableEq, Repr

/-- A Python dict as an insertion-ordered association list. -/
abbrev Doc : Type := List (String × Value)

/-- Model of Python `d.get(k)` / `d[k]` lookup: the first binding of `k`.
Returns `Option.none` when the key is absent (a binding to Python
`None` returns `some Value.null`). -/
def dget : Doc → String → Option Value
  | [], _ => Option.none
  | p :: ps, k => if p.1 = k then some p.2 else dget ps k

/-- Model of Python `d.get(k, default)`. -/
def dgetD (d : Doc) (k : String) (v : Value) : Value :=
  (dget d k).getD v

/-- Model of Python `d.pop(k)`'s effect on the dict: remove the binding
of `k` (dict keys are unique, so removing every binding of `k` removes
exactly the one binding). -/
def dpop : Doc → String → Doc
  | [], _ => []
  | p :: ps, k => if p.1 = k then dpop ps k else p :: dpop ps k

/-- Model of Python `d[k] = v`: update in place when the key exists
(keeping its position, as CPython dicts do), else append at the end. -/
def dset : Doc → String → Value → Doc
  | [], k, v => [(k, v)]
  | p :: ps, k, v => if p.1 = k then (k, v) :: ps else p :: dset ps k v

/-- Python `str(v)` for the values the code passes to `str` (the `_id`
value). An ObjectId renders as its (non-empty) hex form, abstracted
here as a tagged numeral. -/
def pyStr : Value → String
  | .str s => s
  | .int n => toString n
  | .dt t => "datetime(" ++ toString t ++ ")"
  | .oid n => "oid" ++ toString n
  | .null => "None"
  | .strList _ => "[...]"

/-- Abstraction of `datetime.isoformat()` for the instant `t`. -/
def isoformat (t : Nat) : String :=
  "iso8601(" ++ toString t ++ ")"

/-- First step of `serialize_doc`:
`if d.get("_id") is not None: d["id"] = str(d.pop("_id"))`.
The guard is on the looked-up value being non-`None`, which also covers
the key being absent (Python `get` returns `None` then). -/
def idStep (d : Doc) : Doc :=
  match dget d "_id" with
  | some v => if v = Value.null then d else dset (dpop d "_id") "id" (.str (pyStr v))
  | Option.none => d

/-- One iteration of the timestamp loop of `serialize_doc`:
`if k in d and hasattr(d[k], "isoformat"): d[k] = d[k].isoformat()`.
Among the modelled values only `datetime` has `isoformat`. -/
def tsStep (k : String) (d : Doc) : Doc :=
  match dget d k with
  | some (.dt t) => dset d k (.str (isoformat t))
  | _ => d

/-- `serialize_doc` from `src/main.py`: copy the dict, translate `_id`
to a string `id`, then ISO-format the `created_at` and `updated_at`
fields when they are datetimes. -/
def serialize_doc (doc : Doc) : Doc :=
  tsStep "updated_at" (tsStep "created_at" (idStep doc))

/-- Digits-only parse of a character list (the core of Python `int`). -/
def parseDigits : List Char → Option Nat
  | [] => Option.none
  | cs => List.foldl (fun acc c =>
      match acc with
      | Option.none => Option.none
      | some n => if c.isDigit then some (n * 10 + (c.toNat - 48)) else Option.none)
      (some 0) cs

/-- Python `int(s)` on a string: optional sign followed by digits;
anything else raises `ValueError` (modelled as `Option.none`). -/
def parseIntStr (s : String) : Option Int :=
  match s.data with
  | '-' :: rest => (parseDigits rest).map (fun n => -(n : Int))
  | '+' :: rest => (parseDigits rest).map (fun n => (n : Int))
  | cs => (parseDigits cs).map (fun n => (n : Int))

/-- Python `int(v)` on the values a `year` field can hold: integers pass
through, strings are parsed, everything else (`None`, datetimes,
ObjectIds, lists) raises `TypeError`/`ValueError`, modelled as
`Option.none`. -/
def pyInt : Value → Option Int
  | .int n => some n
  | .str s => parseIntStr s
  | _ => Option.none

/-- The sort key of `list_projects`: `int(d.get("year", 0))`, which is
`Option.none` exactly when the coercion raises. -/
def pySortKey (d : Doc) : Option Int :=
  pyInt (dgetD d "year" (Value.int 0))

/-- The integer key used once every coercion is known to succeed. -/
def keyOf (d : Doc) : Int :=
  (pySortKey d).getD 0

/-- Stable descending insertion: place `d` before the first element
whose key does not exceed `d`'s (so earlier-fetched elements stay first
among equal keys). -/
def insertDesc (d : Doc) : List Doc → List Doc
  | [] => [d]
  | x :: xs => if keyOf x ≤ keyOf d then d :: x :: xs else x :: insertDesc d xs

/-- Stable descending sort by `keyOf`; extensionally equal to CPython's
stable `list.sort(key=..., reverse=True)` when all keys are defined. -/
def sortDesc : List Doc → List Doc
  | [] => []
  | d :: ds => insertDesc d (sortDesc ds)

/-- The `try: docs.sort(key=lambda d: int(d.get("year", 0)), reverse=True)
except Exception: pass` of `list_projects`. CPython computes every key
before any reordering, so when a key raises the list is left in the
fetched order and the exception is swallowed; otherwise the stable
descending sort applies. -/
def sortDocsByYearDesc (docs : List Doc) : List Doc :=
  match List.mapM pySortKey docs with
  | Option.none => docs
  | some _ => sortDesc docs

/-- The value returned by `list_projects` as a function of the fetched
documents: best-effort sort, then serialize each document. -/
def list_projects (docs : List Doc) : List Doc :=
  List.map serialize_doc (sortDocsByYearDesc docs)

/-- The four bootstrap records of `ensure_seed_projects`, before the
timestamp loop. -/
def seedBase : List Doc :=
  [[("title", .str "Casa Horizonte"),
    ("image", .str "https://images.unsplash.com/photo-1494526585095-c41746248156?q=80&w=1600&auto=format&fit=crop"),
    ("location", .str "Monterey, CA"),
    ("year", .str "2023"),
    ("tags", .strList ["Residential", "Coastal"]),
    ("description", .str "A cliffside residence framing expansive Pacific views through disciplined apertures and warm concrete.")],
   [("title", .str "Gallery of Light"),
    ("image", .str "https://images.unsplash.com/photo-1487956382158-bb926046304a?q=80&w=1600&auto=format&fit=crop"),
    ("location", .str "Santa Fe, NM"),
    ("year", .str "2022"),
    ("tags", .strList ["Cultural"]),
    ("description", .str "Adaptive reuse gallery washed in high desert light with calibrated roof lanterns.")],
   [("title", .str "Courtyard House"),
    ("image", .str "https://images.unsplash.com/photo-1487958449943-2429e8be8625?q=80&w=1600&auto=format&fit=crop"),
    ("location", .str "Austin, TX"),
    ("year", .str "2021"),
    ("tags", .strList ["Residential", "Courtyard"]),
    ("description", .str "A quiet inward-facing plan organized around a planted court and deep overhangs.")],
   [("title", .str "Cliffside Studio"),
    ("image", .str "https://images.unsplash.com/photo-1502005229762-cf1b2da7c3f5?q=80&w=1600&auto=format&fit=crop"),
    ("location", .str "Big Sur, CA"),
    ("year", .str "2020"),
    ("tags", .strList ["Studio"]),
    ("description", .str "A minimal artist studio perched on a rocky outcrop, tuned to the horizon.")]]

/-- The timestamp loop of `ensure_seed_projects`:
`for s in seed: s["created_at"] = datetime.now(...); s["updated_at"] = datetime.now(...)`.
`clock` gives the instant returned by the k-th `datetime.now` call of
the loop; record `i` receives calls `2*i` and `2*i + 1`. -/
def seedDocs (clock : Nat → Nat) : List Doc :=
  List.map (fun (i : Nat) =>
      dset (dset (seedBase.getD i []) "created_at" (.dt (clock (2 * i))))
        "updated_at" (.dt (clock (2 * i + 1))))
    [0, 1, 2, 3]

/-- Store operations `ensure_seed_projects` may issue against the
`projects` collection. -/
inductive StoreOp where
  | countDocs
  | insertMany (n : Nat)
deriving DecidableEq, Repr

/-- `ensure_seed_projects` from `src/main.py`, over an optional store
handle (`db is None` models the unavailable store) whose `projects`
collection is a list of documents. Returns the new collection state and
the trace of store calls made. -/
def ensure_seed_projects (db : Option (List Doc)) (clock : Nat → Nat) :
    Option (List Doc) × List StoreOp :=
  match db with
  | Option.none => (Option.none, [])
  | some coll =>
    if coll.length = 0 then
      (some (coll ++ seedDocs clock), [StoreOp.countDocs, StoreOp.insertMany (seedDocs clock).length])
    else
      (some coll, [StoreOp.countDocs])

/-- Error classes the HTTP layer distinguishes: request-shape rejection
(422, raised by the excluded validation framework before a handler
runs) versus a server-side failure (500, an unhandled exception inside
a handler). -/
inductive ApiError where
  | validationError
  | internalError
deriving DecidableEq, Repr

/-- `serialize_doc(created)` as invoked by the creation handlers: when
the point lookup returned no document, Python evaluates `dict(None)`,
which raises `TypeError`; the framework surfaces the unhandled
exception as an internal server error. -/
def serialize_lookup : Option Doc → Except ApiError Doc
  | Option.none => Except.error ApiError.internalError
  | some d => Except.ok (serialize_doc d)

/-- `create_project` from `src/main.py`, abstracted over the store's
`find_one` response for the identifier returned by the insert. -/
def create_project (findOne : Nat → Option Doc) (insertedId : Nat) :
    Except ApiError Doc :=
  serialize_lookup (findOne insertedId)

/-- Modelled from the spec: `create_document` lives in `database.py`,
which is not part of the sources; per the spec it stamps `created_at`
and `updated_at` with the same current UTC instant, inserts, and
returns the store-assigned identifier as a string. The stored document
is the input fields plus the two timestamps and the native `_id`. -/
def create_document_stored (data : Doc) (t : Nat) (newId : Nat) : Doc :=
  data ++ [("created_at", Value.dt t), ("updated_at", Value.dt t), ("_id", Value.oid newId)]

/-- `submit_contact` from `src/main.py` on the happy path: insert the
contact (via the spec-modelled `create_document`), point-look-up the
stored document, and serialize it. -/
def submit_contact (data : Doc) (t : Nat) (newId : Nat) : Doc :=
  serialize_doc (create_document_stored data t newId)

/-- The contact payload of the spec's example. -/
def adaInput : Doc :=
  [("name", .str "Ada"), ("email", .str "ada@example.com"), ("message", .str "hi")]

/-- Four fetched records with years 2020, 2023, 2021, 2022 (the spec's
ordering example). -/
def exampleYearDocs : List Doc :=
  [[("title", .str "a"), ("year", .str "2020")],
   [("title", .str "b"), ("year", .str "2023")],
   [("title", .str "c"), ("year", .str "2021")],
   [("title", .str "d"), ("year", .str "2022")]]

/-- Four fetched records, one with the non-numeric year `"N/A"` (the
spec's fallback example). -/
def exampleNADocs : List Doc :=
  [[("title", .str "a"), ("year", .str "2020")],
   [("title", .str "b"), ("year", .str "N/A")],
   [("title", .str "c"), ("year", .str "2021")],
   [("title", .str "d"), ("year", .str "2022")]]

-- ---------- dictionary lemmas ----------

theorem dget_dset_self (d : Doc) (k : String) (v : Value) :
    dget (dset d k v) k = some v := by
  induction d with
  | nil => simp [dset, dget]
  | cons p ps ih =>
    by_cases hp : p.1 = k
    · simp [dset, dget, hp]
    · simp [dset, dget, hp, ih]

theorem dget_dset_ne (d : Doc) (k k' : String) (v : Value) (h : k' ≠ k) :
    dget (dset d k v) k' = dget d k' := by
  have hkk : k ≠ k' := Ne.symm h
  induction d with
  | nil => simp [dset, dget, hkk]
  | cons p ps ih =>
    by_cases hp : p.1 = k
    · have hp' : p.1 ≠ k' := fun he => hkk (hp ▸ he)
      simp only [dset, if_pos hp, dget, if_neg hkk, if_neg hp']
    · simp only [dset, if_neg hp, dget, ih]

theorem dget_dpop_self (d : Doc) (k : String) :
    dget (dpop d k) k = Option.none := by
  induction d with
  | nil => simp [dpop, dget]
  | cons p ps ih =>
    by_cases hp : p.1 = k
    · simp [dpop, dget, hp, ih]
    · simp [dpop, dget, hp, ih]

theorem dget_dpop_ne (d : Doc) (k k' : String) (h : k' ≠ k) :
    dget (dpop d k) k' = dget d k' := by
  induction d with
  | nil => simp [dpop, dget]
  | cons p ps ih =>
    by_cases hp : p.1 = k
    · have hp' : p.1 ≠ k' := fun he => h (hp ▸ he ▸ rfl)
      simp only [dpop, if_pos hp, dget, if_neg hp', ih]
    · simp only [dpop, if_neg hp, dget, ih]

theorem dget_tsStep_ne (d : Doc) (k k' : String) (h : k' ≠ k) :
    dget (tsStep k d) k' = dget d k' := by
  unfold tsStep
  split
  · exact dget_dset_ne d k k' _ h
  · rfl

-- ---------- serialize_doc structure lemmas ----------

theorem tsStep_not_dt (d : Doc) (k : String) (t : Nat) :
    dget (tsStep k d) k ≠ some (Value.dt t) := by
  unfold tsStep
  split
  · rw [dget_dset_self]
    simp
  · rename_i hne
    intro hc
    exact hne t hc

theorem tsStep_of_not_dt (d : Doc) (k : String)
    (h : ∀ t, dget d k ≠ some (Value.dt t)) : tsStep k d = d := by
  unfold tsStep
  split
  · rename_i t heq
    exact absurd heq (h t)
  · rfl

theorem idStep_of_null_or_absent (d : Doc)
    (h : dget d "_id" = Option.none ∨ dget d "_id" = some Value.null) :
    idStep d = d := by
  unfold idStep
  split
  · rename_i v heq
    rcases h with h | h
    · rw [heq] at h
      cases h
    · rw [heq] at h
      have hv : v = Value.null := by injection h
      rw [if_pos hv]
  · rfl

theorem idStep_of_real_id (d : Doc) (v : Value) (h1 : dget d "_id" = some v)
    (h2 : v ≠ Value.null) :
    idStep d = dset (dpop d "_id") "id" (Value.str (pyStr v)) := by
  unfold idStep
  split
  · rename_i w heq
    rw [h1] at heq
    have hw : w = v := by injection heq; simp_all
    rw [hw, if_neg h2]
  · rename_i heq
    rw [h1] at heq
    cases heq

theorem dget_serialize_id_key (d : Doc) :
    dget (serialize_doc d) "_id" = Option.none ∨
    dget (serialize_doc d) "_id" = some Value.null := by
  unfold serialize_doc
  rw [dget_tsStep_ne _ _ _ (by decide), dget_tsStep_ne _ _ _ (by decide)]
  unfold idStep
  split
  · rename_i v heq
    by_cases hv : v = Value.null
    · right
      rw [if_pos hv, heq, hv]
    · left
      rw [if_neg hv, dget_dset_ne _ _ _ _ (by decide), dget_dpop_self]
  · rename_i heq
    left
    exact heq

theorem dget_serialize_preserves (d : Doc) (k : String) (h1 : k ≠ "id")
    (h2 : k ≠ "_id") (h3 : k ≠ "created_at") (h4 : k ≠ "updated_at") :
    dget (serialize_doc d) k = dget d k := by
  unfold serialize_doc
  rw [dget_tsStep_ne _ _ _ h4, dget_tsStep_ne _ _ _ h3]
  unfold idStep
  split
  · rename_i v heq
    by_cases hv : v = Value.null
    · rw [if_pos hv]
    · rw [if_neg hv, dget_dset_ne _ _ _ _ h1, dget_dpop_ne _ _ _ h2]
  · rfl

-- ---------- sorting lemmas ----------

theorem insertDesc_perm (d : Doc) (l : List Doc) : List.Perm (insertDesc d l) (d :: l) := by
  induction l with
  | nil => simp [insertDesc]
  | cons x xs ih =>
    unfold insertDesc
    by_cases hx : keyOf x ≤ keyOf d
    · rw [if_pos hx]
    · rw [if_neg hx]
      exact (ih.cons x).trans (List.Perm.swap d x xs)

theorem sortDesc_perm (l : List Doc) : List.Perm (sortDesc l) l := by
  induction l with
  | nil => exact List.Perm.refl []
  | cons d ds ih => exact (insertDesc_perm d (sortDesc ds)).trans (ih.cons d)

theorem insertDesc_pairwise (d : Doc) (l : List Doc)
    (h : l.Pairwise (fun a b => keyOf b ≤ keyOf a)) :
    (insertDesc d l).Pairwise (fun a b => keyOf b ≤ keyOf a) := by
  induction l with
  | nil => simp [insertDesc]
  | cons x xs ih =>
    rcases List.pairwise_cons.mp h with ⟨hx, hxs⟩
    unfold insertDesc
    by_cases hk : keyOf x ≤ keyOf d
    · rw [if_pos hk]
      refine List.pairwise_cons.mpr ⟨?_, h⟩
      intro b hb
      rcases List.mem_cons.mp hb with rfl | hb
      · exact hk
      · exact le_trans (hx b hb) hk
    · rw [if_neg hk]
      refine List.pairwise_cons.mpr ⟨?_, ih hxs⟩
      intro b hb
      rcases List.mem_cons.mp ((insertDesc_perm d xs).mem_iff.mp hb) with rfl | hb
      · exact le_of_lt (lt_of_not_le hk)
      · exact hx b hb

theorem sortDesc_pairwise (l : List Doc) :
    (sortDesc l).Pairwise (fun a b => keyOf b ≤ keyOf a) := by
  induction l with
  | nil => simp [sortDesc]
  | cons d ds ih => exact insertDesc_pairwise d _ ih

theorem filter_insertDesc (d : Doc) (l : List Doc) (v : Int) :
    (insertDesc d l).filter (fun x => decide (keyOf x = v)) =
      if keyOf d = v then d :: l.filter (fun x => decide (keyOf x = v))
      else l.filter (fun x => decide (keyOf x = v)) := by
  induction l with
  | nil =>
    by_cases hd : keyOf d = v
    · simp [insertDesc, List.filter, hd]
    · simp [insertDesc, List.filter, hd]
  | cons x xs ih =>
    unfold insertDesc
    by_cases hk : keyOf x ≤ keyOf d
    · rw [if_pos hk]
      by_cases hd : keyOf d = v
      · simp [List.filter_cons, hd]
      · simp [List.filter_cons, hd]
    · rw [if_neg hk]
      by_cases hd : keyOf d = v
      · have hx : keyOf x ≠ v := fun he => hk (le_of_eq (he.trans hd.symm))
        simp [List.filter_cons, hx, hd, ih]
      · simp [List.filter_cons, hd, ih]

theorem filter_sortDesc (l : List Doc) (v : Int) :
    (sortDesc l).filter (fun x => decide (keyOf x = v)) =
      l.filter (fun x => decide (keyOf x = v)) := by
  induction l with
  | nil => rfl
  | cons d ds ih =>
    show (insertDesc d (sortDesc ds)).filter _ = _
    rw [filter_insertDesc]
    by_cases hd : keyOf d = v
    · rw [if_pos hd, ih]
      simp [List.filter_cons, hd]
    · rw [if_neg hd, ih]
      simp [List.filter_cons, hd]

theorem mapM_none_of_mem (f : Doc → Option Int) (l : List Doc) (a : Doc)
    (ha : a ∈ l) (hf : f a = Option.none) : List.mapM f l = Option.none := by
  induction l with
  | nil => cases ha
  | cons x xs ih =>
    rw [List.mapM_cons]
    rcases List.mem_cons.mp ha with rfl | ha'
    · rw [hf]
      rfl
    · cases hx : f x with
      | none => rfl
      | some y =>
        rw [ih ha']
        rfl

theorem mapM_some_of_all (f : Doc → Option Int) (l : List Doc)
    (h : ∀ a ∈ l, (f a).isSome) : ∃ ys, List.mapM f l = some ys := by
  induction l with
  | nil => exact ⟨[], rfl⟩
  | cons x xs ih =>
    obtain ⟨y, hy⟩ := Option.isSome_iff_exists.mp (h x (List.mem_cons_self x xs))
    obtain ⟨ys, hys⟩ := ih (fun a ha => h a (List.mem_cons_of_mem x ha))
    refine ⟨y :: ys, ?_⟩
    rw [List.mapM_cons, hy, hys]
    rfl

-- ---------- claim theorems ----------

/-- C1: when every fetched document's `year` is integer-parseable (or
absent, defaulting to 0), `list_projects` returns the serialization of
a stable descending sort: the sorted list is a permutation of the
fetched list, pairwise descending by the coerced key, with equal-key
documents in their fetched relative order, serialization leaves `year`
untouched, and the four example years 2020/2023/2021/2022 come back
2023, 2022, 2021, 2020. -/
theorem list_projects_sorted_of_years_parse (docs : List Doc)
    (h : ∀ d ∈ docs, (pySortKey d).isSome) :
    list_projects docs = List.map serialize_doc (sortDesc docs) ∧
    List.Pairwise (fun a b => keyOf b ≤ keyOf a) (sortDocsByYearDesc docs) ∧
    List.Perm (sortDocsByYearDesc docs) docs ∧
    (∀ v : Int, (sortDocsByYearDesc docs).filter (fun x => decide (keyOf x = v)) =
      docs.filter (fun x => decide (keyOf x = v))) ∧
    (∀ d : Doc, dget (serialize_doc d) "year" = dget d "year") ∧
    List.map (fun d => dget d "year") (sortDocsByYearDesc exampleYearDocs) =
      [some (Value.str "2023"), some (Value.str "2022"),
       some (Value.str "2021"), some (Value.str "2020")] := by
  obtain ⟨ks, hks⟩ := mapM_some_of_all pySortKey docs h
  have hs : sortDocsByYearDesc docs = sortDesc docs := by
    unfold sortDocsByYearDesc
    rw [hks]
  refine ⟨?_, ?_, ?_, ?_, ?_, by decide⟩
  · unfold list_projects
    rw [hs]
  · rw [hs]
    exact sortDesc_pairwise docs
  · rw [hs]
    exact sortDesc_perm docs
  · intro v
    rw [hs]
    exact filter_sortDesc docs v
  · intro d
    exact dget_serialize_preserves d "year" (by decide) (by decide) (by decide) (by decide)

/-- Witness for C1 at the spec's four-record example. -/
theorem list_projects_sorted_of_years_parse_witness :
    (∀ d ∈ exampleYearDocs, (pySortKey d).isSome) ∧
    List.Pairwise (fun a b => keyOf b ≤ keyOf a) (sortDocsByYearDesc exampleYearDocs) ∧
    List.map (fun d => dget d "year") (sortDocsByYearDesc exampleYearDocs) =
      [some (Value.str "2023"), some (Value.str "2022"),
       some (Value.str "2021"), some (Value.str "2020")] :=
  ⟨by decide,
   (list_projects_sorted_of_years_parse exampleYearDocs (by decide)).2.1,
   (list_projects_sorted_of_years_parse exampleYearDocs (by decide)).2.2.2.2.2⟩

/-- C2: `ensure_seed_projects` seeds iff the count is exactly zero: on
`db is None` it makes no store calls, on an empty collection it inserts
exactly the 4 seed records, on a non-empty collection it only counts,
and an immediately repeated call is a no-op. -/
theorem ensure_seed_projects_spec (clock clock2 : Nat → Nat) (coll : List Doc) :
    ensure_seed_projects Option.none clock = (Option.none, []) ∧
    ((ensure_seed_projects (some coll) clock).2 =
        [StoreOp.countDocs, StoreOp.insertMany 4] ↔ coll.length = 0) ∧
    (coll.length ≠ 0 →
      ensure_seed_projects (some coll) clock = (some coll, [StoreOp.countDocs])) ∧
    ensure_seed_projects (some []) clock =
      (some (seedDocs clock), [StoreOp.countDocs, StoreOp.insertMany 4]) ∧
    (seedDocs clock).length = 4 ∧
    ensure_seed_projects (some (seedDocs clock)) clock2 =
      (some (seedDocs clock), [StoreOp.countDocs]) := by
  have hlen : (seedDocs clock).length = 4 := rfl
  refine ⟨rfl, ?_, ?_, rfl, hlen, ?_⟩
  · show (if coll.length = 0 then
        (some (coll ++ seedDocs clock),
          [StoreOp.countDocs, StoreOp.insertMany (seedDocs clock).length])
      else (some coll, [StoreOp.countDocs])).2 =
        [StoreOp.countDocs, StoreOp.insertMany 4] ↔ coll.length = 0
    by_cases hc : coll.length = 0
    · rw [if_pos hc]
      exact ⟨fun _ => hc, fun _ => rfl⟩
    · rw [if_neg hc]
      constructor
      · intro he
        simp at he
      · intro h0
        exact absurd h0 hc
  · intro hc
    show (if coll.length = 0 then
        (some (coll ++ seedDocs clock),
          [StoreOp.countDocs, StoreOp.insertMany (seedDocs clock).length])
      else (some coll, [StoreOp.countDocs])) = (some coll, [StoreOp.countDocs])
    rw [if_neg hc]
  · show (if (seedDocs clock).length = 0 then
        (some (seedDocs clock ++ seedDocs clock2),
          [StoreOp.countDocs, StoreOp.insertMany (seedDocs clock2).length])
      else (some (seedDocs clock), [StoreOp.countDocs])) =
        (some (seedDocs clock), [StoreOp.countDocs])
    rw [if_neg (show ¬(seedDocs clock).length = 0 by rw [hlen]; decide)]

/-- Witness for C2 at a unit clock, the empty collection and a
one-document collection. -/
theorem ensure_seed_projects_spec_witness :
    ensure_seed_projects Option.none (fun n => n) = (Option.none, []) ∧
    ensure_seed_projects (some []) (fun n => n) =
      (some (seedDocs (fun n => n)), [StoreOp.countDocs, StoreOp.insertMany 4]) ∧
    ([[("title", Value.str "t")]] : List Doc).length ≠ 0 ∧
    ensure_seed_projects (some [[("title", Value.str "t")]]) (fun n => n) =
      (some [[("title", Value.str "t")]], [StoreOp.countDocs]) :=
  ⟨(ensure_seed_projects_spec (fun n => n) (fun n => n) []).1,
   (ensure_seed_projects_spec (fun n => n) (fun n => n) []).2.2.2.1,
   by decide,
   (ensure_seed_projects_spec (fun n => n) (fun n => n) [[("title", Value.str "t")]]).2.2.1
     (by decide)⟩

/-- C3 counterexample: the seeding loop calls `datetime.now` twice per
record (`s["created_at"] = datetime.now(...)` then
`s["updated_at"] = datetime.now(...)`), so in a run whose clock
advances between consecutive calls a seeded record has
`created_at ≠ updated_at`; the claim that both fields always hold the
same instant, generated once, is false. -/
theorem seed_timestamps_counterexample :
    ∃ d ∈ seedDocs (fun n => n), dget d "created_at" ≠ dget d "updated_at" := by
  decide

/-- C3 (amended): each seeded record's `created_at` and `updated_at`
come from two separate consecutive `datetime.now` calls (calls `2*i`
and `2*i+1` for record `i`); the two fields are equal exactly when
those two clock reads return the same instant, and are not generated
once per record. -/
theorem seed_timestamps_two_reads (clock : Nat → Nat) (i : Nat) (h : i < 4) :
    dget ((seedDocs clock).getD i []) "created_at" = some (Value.dt (clock (2 * i))) ∧
    dget ((seedDocs clock).getD i []) "updated_at" = some (Value.dt (clock (2 * i + 1))) ∧
    (clock (2 * i) = clock (2 * i + 1) →
      dget ((seedDocs clock).getD i []) "created_at" =
        dget ((seedDocs clock).getD i []) "updated_at") := by
  have hX : (seedDocs clock).getD i [] =
      dset (dset (seedBase.getD i []) "created_at" (Value.dt (clock (2 * i))))
        "updated_at" (Value.dt (clock (2 * i + 1))) := by
    interval_cases i <;> rfl
  have c1 : dget ((seedDocs clock).getD i []) "created_at" =
      some (Value.dt (clock (2 * i))) := by
    rw [hX, dget_dset_ne _ _ _ _ (by decide), dget_dset_self]
  have c2 : dget ((seedDocs clock).getD i []) "updated_at" =
      some (Value.dt (clock (2 * i + 1))) := by
    rw [hX, dget_dset_self]
  exact ⟨c1, c2, fun he => by rw [c1, c2, he]⟩

/-- Witness for the amended C3 at a frozen clock and record 0. -/
theorem seed_timestamps_two_reads_witness :
    (0 : Nat) < 4 ∧
    dget ((seedDocs (fun _ => 9)).getD 0 []) "created_at" =
      dget ((seedDocs (fun _ => 9)).getD 0 []) "updated_at" :=
  ⟨by decide, (seed_timestamps_two_reads (fun _ => 9) 0 (by decide)).2.2 rfl⟩

/-- C4 counterexample: a document containing the `_id` key bound to
`None` is returned by `serialize_doc` with `_id` still present and no
`id` field (the guard is `d.get("_id") is not None`), so the claim as
stated over every document containing the `_id` key is false. -/
theorem serialize_null_id_counterexample :
    dget [("_id", Value.null)] "_id" = some Value.null ∧
    ¬ (dget (serialize_doc [("_id", Value.null)]) "id" =
          some (Value.str (pyStr Value.null)) ∧
       dget (serialize_doc [("_id", Value.null)]) "_id" = Option.none) := by
  decide

/-- C4 (amended): for every stored document whose `_id` field is
present with a non-null value `v`, the serialized output has
`id = str(v)` and no `_id` key. -/
theorem serialize_doc_translates_nonnull_id (d : Doc) (v : Value)
    (h1 : dget d "_id" = some v) (h2 : v ≠ Value.null) :
    dget (serialize_doc d) "id" = some (Value.str (pyStr v)) ∧
    dget (serialize_doc d) "_id" = Option.none := by
  have hid := idStep_of_real_id d v h1 h2
  constructor
  · unfold serialize_doc
    rw [dget_tsStep_ne _ _ _ (by decide), dget_tsStep_ne _ _ _ (by decide), hid,
      dget_dset_self]
  · unfold serialize_doc
    rw [dget_tsStep_ne _ _ _ (by decide), dget_tsStep_ne _ _ _ (by decide), hid,
      dget_dset_ne _ _ _ _ (by decide), dget_dpop_self]

/-- Witness for the amended C4 at a document with ObjectId 7. -/
theorem serialize_doc_translates_nonnull_id_witness :
    dget ([("_id", Value.oid 7), ("title", Value.str "x")] : Doc) "_id" =
      some (Value.oid 7) ∧
    Value.oid 7 ≠ Value.null ∧
    dget (serialize_doc [("_id", Value.oid 7), ("title", Value.str "x")]) "id" =
      some (Value.str (pyStr (Value.oid 7))) :=
  ⟨by decide, by decide,
   (serialize_doc_translates_nonnull_id [("_id", Value.oid 7), ("title", Value.str "x")]
     (Value.oid 7) (by decide) (by decide)).1⟩

/-- C5: when some fetched document's `year` fails integer coercion, the
sort is abandoned, `list_projects` returns exactly the fetched
documents in the fetched order (serialized), and no error escapes. -/
theorem list_projects_fallback_nonnumeric (docs : List Doc)
    (h : ∃ d ∈ docs, pySortKey d = Option.none) :
    sortDocsByYearDesc docs = docs ∧
    list_projects docs = List.map serialize_doc docs ∧
    (list_projects docs).length = docs.length := by
  obtain ⟨d, hd, hk⟩ := h
  have hm : List.mapM pySortKey docs = Option.none :=
    mapM_none_of_mem pySortKey docs d hd hk
  have hs : sortDocsByYearDesc docs = docs := by
    unfold sortDocsByYearDesc
    rw [hm]
  refine ⟨hs, ?_, ?_⟩
  · unfold list_projects
    rw [hs]
  · unfold list_projects
    rw [hs, List.length_map]

/-- Witness for C5 at the spec's four-record example with year "N/A". -/
theorem list_projects_fallback_nonnumeric_witness :
    (∃ d ∈ exampleNADocs, pySortKey d = Option.none) ∧
    sortDocsByYearDesc exampleNADocs = exampleNADocs ∧
    (list_projects exampleNADocs).length = 4 :=
  ⟨by decide,
   (list_projects_fallback_nonnumeric exampleNADocs (by decide)).1,
   by rw [(list_projects_fallback_nonnumeric exampleNADocs (by decide)).2.2]; rfl⟩

/-- C6: when the point lookup after the insert finds no document, the
creation handler produces an internal server error (the unhandled
`TypeError` from `dict(None)` inside `serialize_doc`), which is a
different class from a validation error, and no record is returned. -/
theorem create_project_lookup_miss (findOne : Nat → Option Doc) (i : Nat)
    (h : findOne i = Option.none) :
    create_project findOne i = Except.error ApiError.internalError ∧
    ApiError.internalError ≠ ApiError.validationError ∧
    ∀ d : Doc, create_project findOne i ≠ Except.ok d := by
  have hm : create_project findOne i = Except.error ApiError.internalError := by
    unfold create_project
    rw [h]
    rfl
  refine ⟨hm, by decide, ?_⟩
  intro d hd
  rw [hm] at hd
  exact Except.noConfusion hd

/-- Witness for C6 at a store whose lookup always misses. -/
theorem create_project_lookup_miss_witness :
    ((fun _ : Nat => (Option.none : Option Doc)) 0 = Option.none) ∧
    create_project (fun _ => Option.none) 0 = Except.error ApiError.internalError :=
  ⟨rfl, (create_project_lookup_miss (fun _ => Option.none) 0 rfl).1⟩

/-- C7: creating the contact {name Ada, email ada@example.com, message
hi} returns a record with a non-empty string `id`, the three input
fields unchanged, no raw `_id`, and both timestamps as ISO strings
rather than raw values. -/
theorem submit_contact_ada_roundtrip (t newId : Nat) :
    dget (submit_contact adaInput t newId) "name" = some (Value.str "Ada") ∧
    dget (submit_contact adaInput t newId) "email" = some (Value.str "ada@example.com") ∧
    dget (submit_contact adaInput t newId) "message" = some (Value.str "hi") ∧
    dget (submit_contact adaInput t newId) "id" = some (Value.str (pyStr (Value.oid newId))) ∧
    pyStr (Value.oid newId) ≠ "" ∧
    dget (submit_contact adaInput t newId) "_id" = Option.none ∧
    dget (submit_contact adaInput t newId) "created_at" = some (Value.str (isoformat t)) ∧
    dget (submit_contact adaInput t newId) "updated_at" = some (Value.str (isoformat t)) := by
  refine ⟨rfl, rfl, rfl, rfl, ?_, rfl, rfl, rfl⟩
  intro hempty
  have h2 : ("oid" ++ toString newId) = "" := hempty
  have h3 := congrArg String.length h2
  rw [String.length_append] at h3
  have h4 : "oid".length = 3 := rfl
  have h5 : "".length = 0 := rfl
  omega

/-- C8: `serialize_doc` is idempotent, and on a record with no `_id`
key whose timestamp fields (when present) are already strings it is the
identity. -/
theorem serialize_doc_idempotent (d : Doc) :
    serialize_doc (serialize_doc d) = serialize_doc d ∧
    (dget d "_id" = Option.none →
      (∀ v, dget d "created_at" = some v → ∃ s, v = Value.str s) →
      (∀ v, dget d "updated_at" = some v → ∃ s, v = Value.str s) →
      serialize_doc d = d) := by
  constructor
  · have h1 : idStep (serialize_doc d) = serialize_doc d :=
      idStep_of_null_or_absent _ (dget_serialize_id_key d)
    have h2 : tsStep "created_at" (serialize_doc d) = serialize_doc d := by
      apply tsStep_of_not_dt
      intro t
      show dget (tsStep "updated_at" (tsStep "created_at" (idStep d))) "created_at" ≠ _
      rw [dget_tsStep_ne _ _ _ (by decide)]
      exact tsStep_not_dt _ _ t
    have h3 : tsStep "updated_at" (serialize_doc d) = serialize_doc d := by
      apply tsStep_of_not_dt
      intro t
      show dget (tsStep "updated_at" (tsStep "created_at" (idStep d))) "updated_at" ≠ _
      exact tsStep_not_dt _ _ t
    show tsStep "updated_at" (tsStep "created_at" (idStep (serialize_doc d))) =
      serialize_doc d
    rw [h1, h2, h3]
  · intro h1 h2 h3
    have e1 : idStep d = d := idStep_of_null_or_absent d (Or.inl h1)
    have e2 : tsStep "created_at" d = d := by
      apply tsStep_of_not_dt
      intro t hc
      obtain ⟨s, hs⟩ := h2 _ hc
      exact Value.noConfusion hs
    have e3 : tsStep "updated_at" d = d := by
      apply tsStep_of_not_dt
      intro t hc
      obtain ⟨s, hs⟩ := h3 _ hc
      exact Value.noConfusion hs
    show tsStep "updated_at" (tsStep "created_at" (idStep d)) = d
    rw [e1, e2, e3]

/-- Witness for C8 at an already-serialized record. -/
theorem serialize_doc_idempotent_witness :
    serialize_doc (serialize_doc ([("id", Value.str "1"),
        ("created_at", Value.str "sometime")] : Doc)) =
      serialize_doc [("id", Value.str "1"), ("created_at", Value.str "sometime")] ∧
    serialize_doc ([("id", Value.str "1"), ("created_at", Value.str "sometime")] : Doc) =
      [("id", Value.str "1"), ("created_at", Value.str "sometime")] := by
  refine ⟨(serialize_doc_idempotent _).1,
    (serialize_doc_idempotent _).2 rfl ?_ ?_⟩
  · intro v hv
    have hv' : some (Value.str "sometime") = some v := hv
    injection hv' with h
    exact ⟨"sometime", h.symm⟩
  · intro v hv
    have hv' : (Option.none : Option Value) = some v := hv
    exact Option.noConfusion hv'

/-- C9: a document whose `_id` key is bound to `None` keeps that
binding under `serialize_doc` and gains no `id` key: the translation
tests the value, not key presence. -/
theorem serialize_doc_null_id_preserved (d : Doc) (h : dget d "_id" = some Value.null) :
    dget (serialize_doc d) "_id" = some Value.null ∧
    dget (serialize_doc d) "id" = dget d "id" := by
  have hi : idStep d = d := idStep_of_null_or_absent d (Or.inr h)
  constructor
  · show dget (tsStep "updated_at" (tsStep "created_at" (idStep d))) "_id" = _
    rw [dget_tsStep_ne _ _ _ (by decide), dget_tsStep_ne _ _ _ (by decide), hi]
    exact h
  · show dget (tsStep "updated_at" (tsStep "created_at" (idStep d))) "id" = _
    rw [dget_tsStep_ne _ _ _ (by decide), dget_tsStep_ne _ _ _ (by decide), hi]

/-- Witness for C9 at the one-field document binding `_id` to None. -/
theorem serialize_doc_null_id_preserved_witness :
    dget ([("_id", Value.null)] : Doc) "_id" = some Value.null ∧
    dget (serialize_doc [("_id", Value.null)]) "_id" = some Value.null ∧
    dget (serialize_doc [("_id", Value.null)]) "id" =
      dget ([("_id", Value.null)] : Doc) "id" :=
  ⟨rfl, (serialize_doc_null_id_preserved [("_id", Value.null)] rfl).1,
   (serialize_doc_null_id_preserved [("_id", Value.null)] rfl).2⟩

/-- C10: a `year` key present but bound to None makes `int(...)` raise,
so the whole sort is abandoned and the fetched order is returned; the
default 0 applies only when the key is absent. -/
theorem list_projects_null_year_aborts_sort (docs : List Doc)
    (h : ∃ d ∈ docs, dget d "year" = some Value.null) :
    sortDocsByYearDesc docs = docs ∧
    list_projects docs = List.map serialize_doc docs ∧
    (∀ d : Doc, dget d "year" = some Value.null → pySortKey d = Option.none) ∧
    (∀ d : Doc, dget d "year" = Option.none → pySortKey d = some 0) := by
  have hnull : ∀ d : Doc, dget d "year" = some Value.null → pySortKey d = Option.none := by
    intro d hd
    unfold pySortKey dgetD
    rw [hd]
    rfl
  obtain ⟨d, hd, hy⟩ := h
  have hm : List.mapM pySortKey docs = Option.none :=
    mapM_none_of_mem pySortKey docs d hd (hnull d hy)
  have hs : sortDocsByYearDesc docs = docs := by
    unfold sortDocsByYearDesc
    rw [hm]
  refine ⟨hs, ?_, hnull, ?_⟩
  · unfold list_projects
    rw [hs]
  · intro d0 hd0
    unfold pySortKey dgetD
    rw [hd0]
    rfl

/-- Witness for C10 at a record created without a year (stored as
`year: None`). -/
theorem list_projects_null_year_aborts_sort_witness :
    (∃ d ∈ ([[("title", Value.str "p"), ("year", Value.null)]] : List Doc),
      dget d "year" = some Value.null) ∧
    sortDocsByYearDesc [[("title", Value.str "p"), ("year", Value.null)]] =
      [[("title", Value.str "p"), ("year", Value.null)]] :=
  ⟨by decide,
   (list_projects_null_year_aborts_sort
     [[("title", Value.str "p"), ("year", Value.null)]] (by decide)).1⟩
